import Mathlib

/-!
Verification of the resistor-catalog generator (`gen_resistors_csv.py`).

Python floats are modelled as exact rationals (`ℚ`): every numeric value the
program formats (series base values, decade multiples and their quotients by
1000 or 1000000, tolerances) has an exact short decimal representation, so the
two-decimal fixed-point formatting below agrees with Python's `.2f` / `.1f`
formatting of the corresponding doubles on the whole domain the program uses.
Fallible Python functions (ones that may `raise ValueError`) are modelled as
returning `Except String α`, with the raised message as the error value.

The standard rational operations (`Rat.add`, `Rat.mul`, ...) are marked
irreducible, so the kernel cannot evaluate them; the embedding therefore
computes with the kernel-reducible `qmul`, `qdiv`, `qsub` below, which are
proved equal to `*`, `/`, `-` (`qmul_eq`, `qdiv_eq`, `qsub_eq`), and writes
the source's decimal constants as `mkRat` literals (`1.05 ↦ mkRat 105 100`).
-/

set_option linter.unusedVariables false
set_option linter.unreachableTactic false
set_option linter.unusedTactic false
set_option linter.constructorNameAsVariable false

deriving instance DecidableEq for Except

namespace ResistorGen

/-- Kernel-reducible multiplication on `ℚ` (equal to `*` by `qmul_eq`). -/
def qmul (a b : ℚ) : ℚ := mkRat (a.num * b.num) (a.den * b.den)

/-- Kernel-reducible division on `ℚ` (equal to `/` by `qdiv_eq`). -/
def qdiv (a b : ℚ) : ℚ :=
  mkRat (a.num * (if b.num < 0 then -(b.den : ℤ) else (b.den : ℤ)))
    (a.den * b.num.natAbs)

/-- Kernel-reducible subtraction on `ℚ` (equal to `-` by `qsub_eq`). -/
def qsub (a b : ℚ) : ℚ := mkRat (a.num * b.den - b.num * a.den) (a.den * b.den)

/-- The E24 preferred-value series (source lines 5-8):
1.0, 1.1, 1.2, 1.3, 1.5, 1.6, 1.8, 2.0, 2.2, 2.4, 2.7, 3.0,
3.3, 3.6, 3.9, 4.3, 4.7, 5.1, 5.6, 6.2, 6.8, 7.5, 8.2, 9.1. -/
def E24 : List ℚ :=
  [mkRat 10 10, mkRat 11 10, mkRat 12 10, mkRat 13 10, mkRat 15 10,
   mkRat 16 10, mkRat 18 10, mkRat 20 10, mkRat 22 10, mkRat 24 10,
   mkRat 27 10, mkRat 30 10, mkRat 33 10, mkRat 36 10, mkRat 39 10,
   mkRat 43 10, mkRat 47 10, mkRat 51 10, mkRat 56 10, mkRat 62 10,
   mkRat 68 10, mkRat 75 10, mkRat 82 10, mkRat 91 10]

/-- The E48 preferred-value series (source lines 10-16):
1.00, 1.05, 1.10, 1.15, 1.21, 1.27, 1.33, 1.40, 1.47, 1.54,
1.62, 1.69, 1.78, 1.87, 1.96, 2.05, 2.15, 2.26, 2.37, 2.49,
2.61, 2.74, 2.87, 3.01, 3.16, 3.32, 3.48, 3.65, 3.83, 4.02,
4.22, 4.42, 4.64, 4.87, 5.11, 5.36, 5.62, 5.90, 6.19, 6.49,
6.81, 7.15, 7.50, 7.87, 8.25, 8.66, 9.09, 9.53. -/
def E48 : List ℚ :=
  [mkRat 100 100, mkRat 105 100, mkRat 110 100, mkRat 115 100, mkRat 121 100,
   mkRat 127 100, mkRat 133 100, mkRat 140 100, mkRat 147 100, mkRat 154 100,
   mkRat 162 100, mkRat 169 100, mkRat 178 100, mkRat 187 100, mkRat 196 100,
   mkRat 205 100, mkRat 215 100, mkRat 226 100, mkRat 237 100, mkRat 249 100,
   mkRat 261 100, mkRat 274 100, mkRat 287 100, mkRat 301 100, mkRat 316 100,
   mkRat 332 100, mkRat 348 100, mkRat 365 100, mkRat 383 100, mkRat 402 100,
   mkRat 422 100, mkRat 442 100, mkRat 464 100, mkRat 487 100, mkRat 511 100,
   mkRat 536 100, mkRat 562 100, mkRat 590 100, mkRat 619 100, mkRat 649 100,
   mkRat 681 100, mkRat 715 100, mkRat 750 100, mkRat 787 100, mkRat 825 100,
   mkRat 866 100, mkRat 909 100, mkRat 953 100]

/-- Round a rational to the nearest integer, ties to even; this is the
rounding Python's fixed-point formatting applies to the digit past the last
kept one. -/
def roundHalfEven (q : ℚ) : ℤ :=
  let f : ℤ := q.floor
  if qsub q (mkRat f 1) < mkRat 1 2 then f
  else if mkRat 1 2 < qsub q (mkRat f 1) then f + 1
  else if f % 2 = 0 then f else f + 1

/-- Left-pad a string with the character '0' to width `w`. -/
def padZeros (w : ℕ) (s : String) : String :=
  if w ≤ s.length then s else String.mk (List.replicate (w - s.length) '0') ++ s

/-- Model of Python fixed-point formatting with `d` decimal digits
(`f"{q:.2f}"` for `d = 2`): round to `d` decimal places (nearest, ties to
even) and print with exactly `d` digits after the decimal point. -/
def fmtFixed (d : ℕ) (q : ℚ) : String :=
  let s : ℤ := roundHalfEven (qmul q (mkRat ((10 : ℤ) ^ d) 1))
  let sign := if s < 0 then "-" else ""
  let n := s.natAbs
  sign ++ toString (n / 10 ^ d) ++ "." ++ padZeros d (toString (n % 10 ^ d))

/-- Model of Python `s.rstrip(c)` for a single-character strip set: remove all
trailing occurrences of `c`. -/
def rstripChar (c : Char) (s : String) : String :=
  String.mk ((s.data.reverse.dropWhile (fun d => d = c)).reverse)

/-- Model of Python `s.replace(".", mag)`: replace every '.' by `mag`. -/
def replaceDot (mag : String) (s : String) : String :=
  String.mk (s.data.flatMap (fun ch => if ch = '.' then mag.data else [ch]))

/-- `resistor_tolerance_str` (source lines 81-86):
`f"{tolerance:.1f}".rstrip("0").rstrip(".") + "%"`. -/
def resistor_tolerance_str (tolerance : ℚ) : String :=
  rstripChar '.' (rstripChar '0' (fmtFixed 1 tolerance)) ++ "%"

/-- `resistor_value_str` (source lines 105-123). -/
def resistor_value_str (resistance : ℚ) : String :=
  let p : String × ℚ :=
    if 1000000 ≤ resistance then ("M", qdiv resistance 1000000)
    else if 1000 ≤ resistance then ("k", qdiv resistance 1000)
    else ("", resistance)
  rstripChar '.' (rstripChar '0' (fmtFixed 2 p.2)) ++ p.1

/-- `resistor_part_id_str` (source lines 89-93). -/
def resistor_part_id_str (resistance : ℚ) (package : String) (tolerance : ℚ) :
    String :=
  "R-" ++ resistor_value_str resistance ++ "-" ++ package ++ "-" ++
    resistor_tolerance_str tolerance

/-- Error message of `resistor_footprint_str`. -/
def invalidPackageTypeMsg : String := "Invalid package type"

/-- `resistor_footprint_str` (source lines 96-102). -/
def resistor_footprint_str (package : String) : Except String String :=
  if package = "0402" then Except.ok "Resistor_SMD:R_0402_1005Metric"
  else if package = "0603" then Except.ok "Resistor_SMD:R_0603_1608Metric"
  else Except.error invalidPackageTypeMsg

/-- `resistor_description_str` (source lines 126-130). -/
def resistor_description_str (resistance : ℚ) (package : String)
    (tolerance : ℚ) : String :=
  "Resistor " ++ resistor_value_str resistance ++ " " ++ package ++ " " ++
    resistor_tolerance_str tolerance ++ " 0.1W"

/-- Error message raised for a resistance above 10,000,000 ohms. -/
def invalidResistanceMsg : String := "Not a valid resistance value"

/-- Error message raised for a package outside the six supported codes. -/
def invalidPackageMsg : String := "Invalid package"

/-- Error message raised for a tolerance other than 1.0 or 5.0. -/
def invalidToleranceMsg : String := "Invalid tolerance, must be 1.0% or 5.0%"

/-- The six package codes `yageo_resistor_mpn` accepts (source line 161). -/
def mpnPackages : List String := ["0201", "0402", "0603", "0805", "1206", "1210"]

/-- `yageo_resistor_mpn` (source lines 133-171).  The branch on the
resistance, the mantissa formatting, the package test and the tolerance test
happen in the source's order, so the first failing check determines the
error.  The constant `PACKAGING` is "R" and `REEL` is "07". -/
def yageo_resistor_mpn (resistance : ℚ) (package : String) (tolerance : ℚ) :
    Except String String :=
  let PACKAGING := "R"
  let REEL := "07"
  let branch : Except String (String × ℚ) :=
    if resistance < 1000 then Except.ok ("R", resistance)
    else if resistance < 1000000 then Except.ok ("K", qdiv resistance 1000)
    else if resistance ≤ 10000000 then Except.ok ("M", qdiv resistance 1000000)
    else Except.error invalidResistanceMsg
  match branch with
  | Except.error e => Except.error e
  | Except.ok mr =>
    let resistance_str := replaceDot mr.1 (rstripChar '0' (fmtFixed 2 mr.2))
    if package ∈ mpnPackages then
      if tolerance = 1 then
        Except.ok ("RC" ++ package ++ "F" ++ PACKAGING ++ "-" ++ REEL ++
          resistance_str ++ "L")
      else if tolerance = 5 then
        Except.ok ("RC" ++ package ++ "J" ++ PACKAGING ++ "-" ++ REEL ++
          resistance_str ++ "L")
      else Except.error invalidToleranceMsg
    else Except.error invalidPackageMsg

/-- The fixed datasheet URL (source line 49). -/
def DATASHEET : String :=
  "https://www.yageo.com/upload/media/product/products/datasheet/rchip/PYu-RC_Group_51_RoHS_L_12.pdf"

/-- A row of the output database, fields in the declaration order of the
source's `DatabaseRow` dataclass (source lines 20-33). -/
structure DatabaseRow where
  part_id : String
  value : String
  component : String
  manufacturer : String
  manufacturer_part_number : String
  rating : String
  package : String
  lcsc : String
  or_equivalent : String
  symbol : String
  footprint : String
  datasheet : String
deriving DecidableEq, Repr

/-- The header row: field names of `DatabaseRow` in declaration order
(what `DatabaseRow.headers` yields in the source). -/
def rowHeaders : List String :=
  ["part_id", "value", "component", "manufacturer", "manufacturer_part_number",
   "rating", "package", "lcsc", "or_equivalent", "symbol", "footprint",
   "datasheet"]

/-- The field values of a row in declaration order (what `DatabaseRow.values`
yields in the source). -/
def DatabaseRow.valuesList (r : DatabaseRow) : List String :=
  [r.part_id, r.value, r.component, r.manufacturer, r.manufacturer_part_number,
   r.rating, r.package, r.lcsc, r.or_equivalent, r.symbol, r.footprint,
   r.datasheet]

/-- A resistor specification: the constructor arguments of `YageoResistor`
(source lines 42-46). -/
structure ResistorSpec where
  resistance : ℚ
  package : String
  tolerance : ℚ
deriving DecidableEq, Repr

/-- `YageoResistor.__post_init__` (source lines 48-78): build the database
row of a specification.  The fallible field builders
(`resistor_footprint_str` before `yageo_resistor_mpn`, matching the
evaluation order of the source's keyword arguments) turn the constructor into
an `Except`.  `MANUFACTURER` is "Yageo", `SYMBOL` is "Device:R_Small",
`POWER` is "0.1W", and the rating is the tolerance string followed by
", 0.1W". -/
def mkYageoResistorRow (s : ResistorSpec) : Except String DatabaseRow :=
  match resistor_footprint_str s.package with
  | Except.error e => Except.error e
  | Except.ok footprint =>
    match yageo_resistor_mpn s.resistance s.package s.tolerance with
    | Except.error e => Except.error e
    | Except.ok mpn =>
      Except.ok
        ⟨resistor_part_id_str s.resistance s.package s.tolerance,
         resistor_value_str s.resistance,
         resistor_description_str s.resistance s.package s.tolerance,
         "Yageo",
         mpn,
         resistor_tolerance_str s.tolerance ++ ", 0.1W",
         s.package,
         "",
         "y",
         "Device:R_Small",
         footprint,
         DATASHEET⟩

/-- The decade multipliers (source line 193). -/
def decades : List ℚ := [1, 10, 100, 1000, 10000, 100000, 1000000]

/-- `resistor_list` (source lines 174-187): decades in the outer loop, series
base values in the inner loop, resistance = base * decade. -/
def resistor_list (package : String) (tolerance : ℚ) (series : List ℚ)
    (decadesL : List ℚ) : List ResistorSpec :=
  decadesL.flatMap (fun decade =>
    series.map (fun base => ⟨qmul base decade, package, tolerance⟩))

/-- The four boundary records appended after the series expansion
(source lines 202-207): zero ohms in both packages at tolerance 5.0, then
10,000,000 ohms in both packages at tolerance 1.0. -/
def boundary_specs : List ResistorSpec :=
  [⟨0, "0402", 5⟩, ⟨0, "0603", 5⟩,
   ⟨10000000, "0402", 1⟩, ⟨10000000, "0603", 1⟩]

/-- The specification list built by `gen_resistor_csv` (source lines
190-207): packages in the outer loop, then the (series, tolerance) pairs E48
with 1.0 and E24 with 5.0, with the four boundary records appended last. -/
def all_specs : List ResistorSpec :=
  (["0402", "0603"].flatMap (fun package =>
    [(E48, (1 : ℚ)), (E24, 5)].flatMap (fun st =>
      resistor_list package st.2 st.1 decades))) ++ boundary_specs

/-- Model of `csv.writer`'s `QUOTE_ALL` quoting of one field: surround with
double quotes, doubling any embedded double quote. -/
def quoteField (s : String) : String :=
  "\"" ++ String.mk (s.data.flatMap
    (fun c => if c = '"' then ['"', '"'] else [c])) ++ "\""

/-- Model of `csv.writer.writerow` with `QUOTE_ALL`: the quoted fields joined
by commas, terminated by the writer's default `"\r\n"`. -/
def csvRow (fields : List String) : String :=
  String.intercalate "," (fields.map quoteField) ++ "\r\n"

/-- The rows written by `gen_resistor_csv` (source lines 209-213) for a given
record list: the header row first, then one row per record in order. -/
def serializedLines (rows : List DatabaseRow) : List String :=
  csvRow rowHeaders :: rows.map (fun r => csvRow r.valuesList)

/-- The full text written to the output file for a given record list. -/
def serialize (rows : List DatabaseRow) : String :=
  String.join (serializedLines rows)

/-- Building every database row for a list of specifications.  In the source
every `YageoResistor` is constructed — fields and all — while the record list
is built, before the output file is opened, so the first failing construction
aborts the whole generation with that error. -/
def gen_rows_from : List ResistorSpec → Except String (List DatabaseRow)
  | [] => Except.ok []
  | s :: rest =>
    match mkYageoResistorRow s with
    | Except.error e => Except.error e
    | Except.ok row =>
      match gen_rows_from rest with
      | Except.error e => Except.error e
      | Except.ok rows => Except.ok (row :: rows)

/-- The text `gen_resistor_csv` writes to the output file for a list of
specifications; on any record-construction error no text is produced at
all (the file is never opened). -/
def gen_output_from (specs : List ResistorSpec) : Except String String :=
  Except.map serialize (gen_rows_from specs)

/-- `gen_resistor_csv` (source lines 190-213): the content of
`yageo_resistors.csv`. -/
def gen_resistor_csv : Except String String :=
  gen_output_from all_specs

/-- The part identifiers of the full generated catalog. -/
def all_part_ids : List String :=
  all_specs.map (fun s => resistor_part_id_str s.resistance s.package s.tolerance)

/-- The tolerance code of the part number: "F" for 1.0, "J" for 5.0. -/
def tolCode (t : ℚ) : String := if t = 1 then "F" else "J"

/-- The magnitude letter the part-number builder selects for a resistance. -/
def mpnMagnitude (r : ℚ) : String :=
  if r < 1000 then "R" else if r < 1000000 then "K" else "M"

/-- The scaled value the part-number builder formats for a resistance. -/
def mpnScaled (r : ℚ) : ℚ :=
  if r < 1000 then r else if r < 1000000 then qdiv r 1000 else qdiv r 1000000

/-- The mantissa of the part number: the scaled value formatted to two
decimal places, trailing zero digits stripped (the decimal point kept), and
the decimal point replaced by the magnitude letter. -/
def mpnMantissa (r : ℚ) : String :=
  replaceDot (mpnMagnitude r) (rstripChar '0' (fmtFixed 2 (mpnScaled r)))

/-- An injective encoding of strings as natural numbers, used to decide
distinctness of the generated part identifiers efficiently. -/
def strEnc (s : String) : ℕ :=
  s.data.foldl (fun a c => a * 1114112 + c.toNat) 1

/-- Fuel-bounded merge of two lists (kernel-reducible; with exhausted fuel it
degenerates to append, which keeps `mergeF_perm` unconditional). -/
def mergeF : ℕ → List ℕ → List ℕ → List ℕ
  | 0, xs, ys => xs ++ ys
  | _ + 1, [], ys => ys
  | _ + 1, x :: xs, [] => x :: xs
  | n + 1, x :: xs, y :: ys =>
    if x ≤ y then x :: mergeF n xs (y :: ys) else y :: mergeF n (x :: xs) ys

/-- Merge adjacent pairs of runs. -/
def mergePairs : List (List ℕ) → List (List ℕ)
  | a :: b :: rest => mergeF (a.length + b.length) a b :: mergePairs rest
  | ls => ls

/-- Fuel-bounded bottom-up merging of a list of runs into one list. -/
def mergeAll : ℕ → List (List ℕ) → List ℕ
  | 0, ls => ls.flatten
  | _ + 1, [] => []
  | _ + 1, [l] => l
  | n + 1, ls => mergeAll n (mergePairs ls)

/-- Kernel-reducible merge sort (used only through `msort_perm` and a decided
strict-ascent check, so its sortedness needs no proof). -/
def msort (l : List ℕ) : List ℕ :=
  mergeAll l.length (l.map (fun x => [x]))

/-- Boolean check that a list of naturals is strictly ascending. -/
def chainLtBool : List ℕ → Bool
  | [] => true
  | [_] => true
  | a :: b :: rest => a < b && chainLtBool (b :: rest)

/-- The database row of the specification (100 ohms, "0402", 1.0), used as a
concrete witness input. -/
def row100 : DatabaseRow :=
  ⟨"R-100-0402-1%", "100", "Resistor 100 0402 1% 0.1W", "Yageo",
   "RC0402FR-07100RL", "1%, 0.1W", "0402", "", "y", "Device:R_Small",
   "Resistor_SMD:R_0402_1005Metric", DATASHEET⟩

theorem qmul_eq (a b : ℚ) : qmul a b = a * b := by
  rw [qmul, Rat.mkRat_eq_divInt, Rat.divInt_eq_div]
  push_cast
  conv_rhs => rw [← Rat.num_div_den a, ← Rat.num_div_den b]
  rw [div_mul_div_comm]

theorem qsub_eq (a b : ℚ) : qsub a b = a - b := by
  rw [qsub, Rat.mkRat_eq_divInt, Rat.divInt_eq_div]
  push_cast
  conv_rhs => rw [← Rat.num_div_den a, ← Rat.num_div_den b,
    div_sub_div _ _ (by positivity) (by positivity)]
  ring_nf

theorem qdiv_eq (a b : ℚ) (hb : 0 < b) : qdiv a b = a / b := by
  have hbn : 0 < b.num := Rat.num_pos.mpr hb
  have had : (0:ℚ) < (a.den : ℚ) := by exact_mod_cast a.den_pos
  have hbd : (0:ℚ) < (b.den : ℚ) := by exact_mod_cast b.den_pos
  have hbq : (0:ℚ) < (b.num : ℚ) := by exact_mod_cast hbn
  have ha : (a.num : ℚ) = a * a.den := by
    have h := Rat.num_div_den a
    rwa [div_eq_iff (ne_of_gt had)] at h
  have hb2 : (b.num : ℚ) = b * b.den := by
    have h := Rat.num_div_den b
    rwa [div_eq_iff (ne_of_gt hbd)] at h
  rw [qdiv, if_neg (by omega), Rat.mkRat_eq_divInt, Rat.divInt_eq_div]
  push_cast [Int.natAbs_of_nonneg hbn.le]
  rw [div_eq_div_iff (by positivity) (ne_of_gt hb)]
  rw [ha, hb2]
  ring

theorem mergeF_perm (n : ℕ) :
    ∀ xs ys : List ℕ, List.Perm (mergeF n xs ys) (xs ++ ys) := by
  induction n with
  | zero => intro xs ys; simp [mergeF]
  | succ n ih =>
    intro xs ys
    cases xs with
    | nil => simp [mergeF]
    | cons x xs =>
      cases ys with
      | nil => simp [mergeF]
      | cons y ys =>
        simp only [mergeF]
        by_cases h : x ≤ y
        · rw [if_pos h]
          exact (ih xs (y :: ys)).cons x
        · rw [if_neg h]
          exact ((ih (x :: xs) ys).cons y).trans List.perm_middle.symm

theorem mergePairs_flatten_perm :
    ∀ ls : List (List ℕ), List.Perm (mergePairs ls).flatten ls.flatten
  | [] => by simp [mergePairs]
  | [a] => by simp [mergePairs]
  | a :: b :: rest => by
    simp only [mergePairs, List.flatten_cons]
    have h1 : List.Perm (mergeF (a.length + b.length) a b ++ (mergePairs rest).flatten)
        ((a ++ b) ++ rest.flatten) :=
      (mergeF_perm _ a b).append (mergePairs_flatten_perm rest)
    rw [List.append_assoc] at h1
    exact h1

theorem mergeAll_perm (n : ℕ) :
    ∀ ls : List (List ℕ), List.Perm (mergeAll n ls) ls.flatten := by
  induction n with
  | zero => intro ls; simp [mergeAll]
  | succ n ih =>
    intro ls
    match ls with
    | [] => simp [mergeAll]
    | [l] => simp [mergeAll]
    | a :: b :: rest =>
      have h0 : mergeAll (n + 1) (a :: b :: rest)
          = mergeAll n (mergePairs (a :: b :: rest)) := by simp [mergeAll]
      rw [h0]
      exact (ih _).trans (mergePairs_flatten_perm _)

theorem msort_perm (l : List ℕ) : List.Perm (msort l) l := by
  have h : (l.map (fun x => [x])).flatten = l := by
    induction l with
    | nil => rfl
    | cons a t ih => simp [ih]
  have h2 := mergeAll_perm l.length (l.map (fun x => [x]))
  rw [h] at h2
  exact h2

/-- On valid inputs the part-number builder succeeds and its output is the
concatenation of the fixed pieces around the mantissa, with a literal hyphen
between the packaging code "R" and the reel code "07". -/
theorem chain'_of_chainLtBool :
    ∀ l : List ℕ, chainLtBool l = true → List.Chain' (· < ·) l
  | [] => fun _ => List.chain'_nil
  | [a] => fun _ => List.chain'_singleton a
  | a :: b :: rest => fun h => by
    rw [chainLtBool] at h
    simp only [Bool.and_eq_true, decide_eq_true_eq] at h
    exact List.chain'_cons.mpr
      ⟨h.1, chain'_of_chainLtBool (b :: rest) h.2⟩

theorem mpn_ok_eq (r : ℚ) (pkg : String) (tol : ℚ) (h1 : r ≤ 10000000)
    (hp : pkg ∈ mpnPackages) (ht : tol = 1 ∨ tol = 5) :
    yageo_resistor_mpn r pkg tol =
      Except.ok ("RC" ++ pkg ++ tolCode tol ++ "R" ++ "-" ++ "07" ++
        mpnMantissa r ++ "L") := by
  have h51 : (5 : ℚ) ≠ 1 := by norm_num
  unfold yageo_resistor_mpn
  by_cases hr1 : r < 1000
  · rcases ht with rfl | rfl
    · simp [hr1, hp, mpnMantissa, mpnMagnitude, mpnScaled, tolCode]
    · simp [hr1, hp, h51, mpnMantissa, mpnMagnitude, mpnScaled, tolCode]
  · by_cases hr2 : r < 1000000
    · rcases ht with rfl | rfl
      · simp [hr1, hr2, hp, mpnMantissa, mpnMagnitude, mpnScaled, tolCode]
      · simp [hr1, hr2, hp, h51, mpnMantissa, mpnMagnitude, mpnScaled, tolCode]
    · rcases ht with rfl | rfl
      · simp [hr1, hr2, h1, hp, mpnMantissa, mpnMagnitude, mpnScaled, tolCode]
      · simp [hr1, hr2, h1, hp, h51, mpnMantissa, mpnMagnitude, mpnScaled,
          tolCode]

/-- Exhaustive behaviour of the part-number builder: exactly one of the four
outcomes occurs, following the source's check order (resistance range first,
then package, then tolerance). -/
theorem mpn_cases (r : ℚ) (pkg : String) (tol : ℚ) :
    (10000000 < r ∧
      yageo_resistor_mpn r pkg tol = Except.error invalidResistanceMsg) ∨
    (r ≤ 10000000 ∧ pkg ∉ mpnPackages ∧
      yageo_resistor_mpn r pkg tol = Except.error invalidPackageMsg) ∨
    (r ≤ 10000000 ∧ pkg ∈ mpnPackages ∧ ¬ (tol = 1 ∨ tol = 5) ∧
      yageo_resistor_mpn r pkg tol = Except.error invalidToleranceMsg) ∨
    (r ≤ 10000000 ∧ pkg ∈ mpnPackages ∧ (tol = 1 ∨ tol = 5) ∧
      ∃ s, yageo_resistor_mpn r pkg tol = Except.ok s) := by
  by_cases hr : r ≤ 10000000
  · by_cases hp : pkg ∈ mpnPackages
    · by_cases ht : tol = 1 ∨ tol = 5
      · exact Or.inr (Or.inr (Or.inr
          ⟨hr, hp, ht, _, mpn_ok_eq r pkg tol hr hp ht⟩))
      · refine Or.inr (Or.inr (Or.inl ⟨hr, hp, ht, ?_⟩))
        push_neg at ht
        unfold yageo_resistor_mpn
        by_cases hr1 : r < 1000
        · simp [hr1, hp, ht.1, ht.2]
        · by_cases hr2 : r < 1000000
          · simp [hr1, hr2, hp, ht.1, ht.2]
          · simp [hr1, hr2, hr, hp, ht.1, ht.2]
    · refine Or.inr (Or.inl ⟨hr, hp, ?_⟩)
      unfold yageo_resistor_mpn
      by_cases hr1 : r < 1000
      · simp [hr1, hp]
      · by_cases hr2 : r < 1000000
        · simp [hr1, hr2, hp]
        · simp [hr1, hr2, hr, hp]
  · have h : 10000000 < r := not_le.mp hr
    have hr1 : ¬ r < 1000 := not_lt.mpr (by linarith)
    have hr2 : ¬ r < 1000000 := not_lt.mpr (by linarith)
    refine Or.inl ⟨h, ?_⟩
    unfold yageo_resistor_mpn
    simp [hr1, hr2, hr]

/-- C1 (counterexample): the part-number builder does NOT return the plain
concatenation "RC" + package + toleranceCode + "R" + "07" + scaledMantissa +
"L": at resistance 100, package "0402", tolerance 1.0 the code inserts a
hyphen between the packaging code "R" and the reel code "07". -/
theorem C1_counterexample :
    yageo_resistor_mpn 100 "0402" 1 ≠
      Except.ok ("RC" ++ "0402" ++ "F" ++ "R" ++ "07" ++
        replaceDot "R" (rstripChar '0' (fmtFixed 2 100)) ++ "L") := by
  decide

/-- C1 (amended): for every resistance 0 ≤ r ≤ 10,000,000, package among the
six supported codes, and tolerance 1.0 or 5.0, the part-number builder
returns exactly "RC" + package + toleranceCode + "R" + "-" + "07" +
scaledMantissa + "L", with no other characters between those pieces. -/
theorem C1_mpn_format (r : ℚ) (pkg : String) (tol : ℚ) (h0 : 0 ≤ r)
    (h1 : r ≤ 10000000) (hp : pkg ∈ mpnPackages) (ht : tol = 1 ∨ tol = 5) :
    yageo_resistor_mpn r pkg tol =
      Except.ok ("RC" ++ pkg ++ tolCode tol ++ "R" ++ "-" ++ "07" ++
        mpnMantissa r ++ "L") :=
  mpn_ok_eq r pkg tol h1 hp ht

/-- Witness for C1 at resistance 100, package "0402", tolerance 1.0. -/
theorem C1_mpn_format_witness :
    yageo_resistor_mpn 100 "0402" 1 =
      Except.ok ("RC" ++ "0402" ++ tolCode 1 ++ "R" ++ "-" ++ "07" ++
        mpnMantissa 100 ++ "L") :=
  C1_mpn_format 100 "0402" 1 (by norm_num) (by norm_num) (by decide)
    (Or.inl rfl)

/-- C4 (counterexample): the three error conditions are not plain
biconditionals over all inputs: at resistance 10,000,001, package "9999",
tolerance 2.0 the tolerance is invalid, yet the builder does not fail with
the invalid-tolerance error (the resistance check fires first). -/
theorem C4_counterexample :
    ¬ ((yageo_resistor_mpn 10000001 "9999" 2 = Except.error invalidToleranceMsg)
        ↔ ¬ ((2 : ℚ) = 1 ∨ (2 : ℚ) = 5)) := by
  decide

/-- C4 (amended): the checks are ordered.  The builder fails with the
invalid-resistance error iff resistance exceeds 10,000,000; with the
invalid-package error iff resistance is in range and the package is not one
of the six codes; with the invalid-tolerance error iff resistance is in
range, the package is valid, and the tolerance is neither exactly 1.0 (code
"F") nor exactly 5.0 (code "J"); and otherwise it returns a string. -/
theorem C4_error_conditions (r : ℚ) (pkg : String) (tol : ℚ) :
    (yageo_resistor_mpn r pkg tol = Except.error invalidResistanceMsg ↔
      10000000 < r) ∧
    (yageo_resistor_mpn r pkg tol = Except.error invalidPackageMsg ↔
      r ≤ 10000000 ∧ pkg ∉ mpnPackages) ∧
    (yageo_resistor_mpn r pkg tol = Except.error invalidToleranceMsg ↔
      r ≤ 10000000 ∧ pkg ∈ mpnPackages ∧ ¬ (tol = 1 ∨ tol = 5)) ∧
    (r ≤ 10000000 → pkg ∈ mpnPackages → (tol = 1 ∨ tol = 5) →
      ∃ s, yageo_resistor_mpn r pkg tol = Except.ok s) := by
  have e12 : invalidResistanceMsg ≠ invalidPackageMsg := by decide
  have e13 : invalidResistanceMsg ≠ invalidToleranceMsg := by decide
  have e23 : invalidPackageMsg ≠ invalidToleranceMsg := by decide
  have e21 := e12.symm
  have e31 := e13.symm
  have e32 := e23.symm
  rcases mpn_cases r pkg tol with
    ⟨h1, he⟩ | ⟨h1, h2, he⟩ | ⟨h1, h2, h3, he⟩ | ⟨h1, h2, h3, s, he⟩ <;>
    refine ⟨⟨fun hfwd1 => ?_, fun hbwd1 => ?_⟩, ⟨fun hfwd2 => ?_, fun hbwd2 => ?_⟩,
      ⟨fun hfwd3 => ?_, fun hbwd3 => ?_⟩, fun ha hb hc => ?_⟩ <;>
    simp_all <;> first | linarith | skip

/-- Witness for C4 at resistance 10,000,001. -/
theorem C4_error_conditions_witness :
    yageo_resistor_mpn 10000001 "0603" 1 =
      Except.error invalidResistanceMsg :=
  (C4_error_conditions 10000001 "0603" 1).1.mpr (by norm_num)

/-- C5: for 0 ≤ r ≤ 10,000,000 the magnitude letter and scaling are: below
1,000 the letter "R" with no scaling; from 1,000 below 1,000,000 the letter
"K" with division by 1,000; from 1,000,000 up the letter "M" with division
by 1,000,000.  The mantissa is the scaled value formatted to two decimal
places with trailing zero digits stripped (the decimal point itself kept)
and the point then replaced by the magnitude letter, and on valid package
and tolerance the builder's output embeds exactly that mantissa. -/
theorem C5_magnitude_mantissa (r : ℚ) (h0 : 0 ≤ r) (h1 : r ≤ 10000000) :
    ((r < 1000 → mpnMagnitude r = "R" ∧ mpnScaled r = r) ∧
     (1000 ≤ r → r < 1000000 →
        mpnMagnitude r = "K" ∧ mpnScaled r = r / 1000) ∧
     (1000000 ≤ r → mpnMagnitude r = "M" ∧ mpnScaled r = r / 1000000)) ∧
    mpnMantissa r =
      replaceDot (mpnMagnitude r) (rstripChar '0' (fmtFixed 2 (mpnScaled r))) ∧
    (∀ pkg tol, pkg ∈ mpnPackages → (tol = 1 ∨ tol = 5) →
      yageo_resistor_mpn r pkg tol =
        Except.ok ("RC" ++ pkg ++ tolCode tol ++ "R" ++ "-" ++ "07" ++
          replaceDot (mpnMagnitude r)
            (rstripChar '0' (fmtFixed 2 (mpnScaled r))) ++ "L")) := by
  have hq3 : qdiv r 1000 = r / 1000 := qdiv_eq r 1000 (by norm_num)
  have hq6 : qdiv r 1000000 = r / 1000000 := qdiv_eq r 1000000 (by norm_num)
  refine ⟨⟨fun hlt => ?_, fun hge hlt => ?_, fun hge => ?_⟩, rfl,
    fun pkg tol hp ht => mpn_ok_eq r pkg tol h1 hp ht⟩
  · simp [mpnMagnitude, mpnScaled, hlt]
  · simp [mpnMagnitude, mpnScaled, hlt, not_lt.mpr hge, hq3]
  · have h2 : ¬ r < 1000 := not_lt.mpr (by linarith)
    have h3 : ¬ r < 1000000 := not_lt.mpr hge
    simp [mpnMagnitude, mpnScaled, h2, h3, hq6]

/-- Witness for C5 at resistance 4700 (the "K" range), package "0603",
tolerance 1.0. -/
theorem C5_magnitude_mantissa_witness :
    mpnMagnitude 4700 = "K" ∧ mpnScaled 4700 = 4700 / 1000 ∧
    yageo_resistor_mpn 4700 "0603" 1 =
      Except.ok ("RC" ++ "0603" ++ tolCode 1 ++ "R" ++ "-" ++ "07" ++
        replaceDot (mpnMagnitude 4700)
          (rstripChar '0' (fmtFixed 2 (mpnScaled 4700))) ++ "L") := by
  obtain ⟨⟨hR, hK, hM⟩, hmant, hok⟩ :=
    C5_magnitude_mantissa 4700 (by norm_num) (by norm_num)
  obtain ⟨hmag, hsc⟩ := hK (by norm_num) (by norm_num)
  exact ⟨hmag, hsc, hok "0603" 1 (by decide) (Or.inl rfl)⟩

set_option maxRecDepth 100000 in
/-- C6: the value formatter's contract points: 0.1 → "0.1", 10 → "10",
1000 → "1k", 2500 → "2.5k", 1000000 → "1M", 10.234 → "10.23" (rounded to
nearest at two decimal places before stripping), and 0 → "0" through the
generic path. -/
theorem C6_value_formatter :
    resistor_value_str (1 / 10) = "0.1" ∧ resistor_value_str 10 = "10" ∧
    resistor_value_str 1000 = "1k" ∧ resistor_value_str 2500 = "2.5k" ∧
    resistor_value_str 1000000 = "1M" ∧
    resistor_value_str (10234 / 1000) = "10.23" ∧
    roundHalfEven ((10234 / 1000 : ℚ) * 10 ^ 2) = 1023 ∧
    resistor_value_str 0 = "0" := by
  have h1 : (1 / 10 : ℚ) = mkRat 1 10 := by
    rw [Rat.mkRat_eq_divInt, Rat.divInt_eq_div]; norm_num
  have h2 : (10234 / 1000 : ℚ) = mkRat 10234 1000 := by
    rw [Rat.mkRat_eq_divInt, Rat.divInt_eq_div]; norm_num
  have h4 : ((10 : ℚ)) ^ 2 = mkRat 100 1 := by
    rw [Rat.mkRat_eq_divInt, Rat.divInt_eq_div]; norm_num
  have h3 : (10234 / 1000 : ℚ) * 10 ^ 2 = qmul (mkRat 10234 1000) (mkRat 100 1) := by
    rw [qmul_eq, h2, h4]
  rw [h3, h1, h2]
  decide

/-- C7: the footprint resolver maps "0402" and "0603" to their fixed
footprint strings and fails with the invalid-package-type error on every
other package string, including the other four codes the part-number builder
accepts. -/
theorem C7_footprint (p : String) :
    resistor_footprint_str "0402" = Except.ok "Resistor_SMD:R_0402_1005Metric" ∧
    resistor_footprint_str "0603" = Except.ok "Resistor_SMD:R_0603_1608Metric" ∧
    (p ≠ "0402" → p ≠ "0603" →
      resistor_footprint_str p = Except.error invalidPackageTypeMsg) := by
  refine ⟨by decide, by decide, fun h1 h2 => ?_⟩
  simp [resistor_footprint_str, h1, h2]

/-- Witness for C7 at package "0805" (accepted by the part-number builder but
not by the footprint resolver). -/
theorem C7_footprint_witness :
    resistor_footprint_str "0805" = Except.error invalidPackageTypeMsg :=
  (C7_footprint "0805").2.2 (by decide) (by decide)

set_option maxRecDepth 1000000 in
/-- C2: the generated catalog is the outer loop over the packages "0402"
then "0603", inside it the pairs (E48, 1.0) then (E24, 5.0), then the seven
decades, then the series values, with the four boundary records appended
last; it has exactly 2 * (48 + 24) * 7 + 4 = 1012 records. -/
theorem C2_catalog_structure :
    E48.length = 48 ∧ E24.length = 24 ∧ decades.length = 7 ∧
    decades = [1, 10, 100, 1000, 10000, 100000, 1000000] ∧
    all_specs =
      resistor_list "0402" 1 E48 decades ++ resistor_list "0402" 5 E24 decades
        ++ resistor_list "0603" 1 E48 decades
        ++ resistor_list "0603" 5 E24 decades ++ boundary_specs ∧
    (∀ pkg tol series decadesL,
      resistor_list pkg tol series decadesL =
        decadesL.flatMap (fun decade =>
          series.map (fun base => ⟨qmul base decade, pkg, tol⟩))) ∧
    all_specs.length = 2 * (48 + 24) * 7 + 4 ∧
    all_specs.length = 1012 := by
  refine ⟨rfl, rfl, rfl, rfl, ?_, fun pkg tol series decadesL => rfl, rfl, rfl⟩
  simp [all_specs, List.flatMap]

set_option maxRecDepth 10000000 in
set_option maxHeartbeats 12000000 in
/-- C3: the part identifiers of the 1012 generated records are pairwise
distinct: no two generated (resistance, package, tolerance) specifications
map to the same identifier string. -/
theorem C3_part_ids_unique : all_part_ids.Nodup := by
  have hbool : chainLtBool (msort (all_part_ids.map strEnc)) = true := by
    decide
  have hchain : List.Chain' (· < ·) (msort (all_part_ids.map strEnc)) :=
    chain'_of_chainLtBool _ hbool
  have hpw : List.Pairwise (· < ·) (msort (all_part_ids.map strEnc)) :=
    List.chain'_iff_pairwise.mp hchain
  have hnd : (msort (all_part_ids.map strEnc)).Nodup :=
    hpw.imp (fun h => Nat.ne_of_lt h)
  have hnd2 : (all_part_ids.map strEnc).Nodup :=
    ((msort_perm (all_part_ids.map strEnc)).nodup_iff).mp hnd
  exact List.Nodup.of_map strEnc hnd2

theorem gen_rows_from_error_of_mem (specs : List ResistorSpec)
    (s : ResistorSpec) (hs : s ∈ specs) (e : String)
    (he : mkYageoResistorRow s = Except.error e) :
    ∃ e2, gen_rows_from specs = Except.error e2 := by
  induction specs with
  | nil => cases hs
  | cons a rest ih =>
    rcases List.mem_cons.mp hs with rfl | hmem
    · exact ⟨e, by simp [gen_rows_from, he]⟩
    · cases hrow : mkYageoResistorRow a with
      | error e3 => exact ⟨e3, by simp [gen_rows_from, hrow]⟩
      | ok row =>
        obtain ⟨e2, h2⟩ := ih hmem
        exact ⟨e2, by simp [gen_rows_from, hrow, h2]⟩

/-- C8: if building any record fails, the whole generation fails with that
error and produces no output text at all — the serialization step runs only
after every record, fields and all, has been constructed. -/
theorem C8_fail_fast (specs : List ResistorSpec) :
    (∀ e, gen_rows_from specs = Except.error e →
      gen_output_from specs = Except.error e) ∧
    (∀ s ∈ specs, (∃ e, mkYageoResistorRow s = Except.error e) →
      ∃ e2, gen_output_from specs = Except.error e2) := by
  constructor
  · intro e h
    simp [gen_output_from, h, Except.map]
  · rintro s hs ⟨e, he⟩
    obtain ⟨e2, h2⟩ := gen_rows_from_error_of_mem specs s hs e he
    exact ⟨e2, by simp [gen_output_from, h2, Except.map]⟩

/-- Witness for C8: a single specification with an unsupported package makes
the whole generation fail with the footprint resolver's error. -/
theorem C8_fail_fast_witness :
    gen_output_from [⟨1, "9999", 1⟩] = Except.error invalidPackageTypeMsg :=
  (C8_fail_fast [⟨1, "9999", 1⟩]).1 invalidPackageTypeMsg (by decide)

/-- C9: the serializer's first row is the field-name header in the fixed
order part_id, value, component, manufacturer, manufacturer_part_number,
rating, package, lcsc, or_equivalent, symbol, footprint, datasheet, then one
row per record in generation order; every field is double-quoted, and the
row count is the record count plus one. -/
theorem C9_serializer (rows : List DatabaseRow) :
    rowHeaders = ["part_id", "value", "component", "manufacturer",
      "manufacturer_part_number", "rating", "package", "lcsc",
      "or_equivalent", "symbol", "footprint", "datasheet"] ∧
    serializedLines rows =
      csvRow rowHeaders :: rows.map (fun r => csvRow r.valuesList) ∧
    (serializedLines rows).length = rows.length + 1 ∧
    serialize rows = String.join (serializedLines rows) ∧
    (∀ fields, csvRow fields =
      String.intercalate "," (fields.map quoteField) ++ "\r\n") ∧
    (∀ f, ∃ m, quoteField f = "\"" ++ m ++ "\"") := by
  refine ⟨rfl, rfl, by simp [serializedLines], rfl, fun fields => rfl,
    fun f => ⟨_, rfl⟩⟩

/-- C10: every successfully built record carries the fixed metadata:
manufacturer "Yageo", symbol "Device:R_Small", the fixed datasheet URL,
empty lcsc, or_equivalent "y", and rating = formatted tolerance followed by
", 0.1W". -/
theorem C10_fixed_metadata (s : ResistorSpec) (row : DatabaseRow)
    (h : mkYageoResistorRow s = Except.ok row) :
    row.manufacturer = "Yageo" ∧ row.symbol = "Device:R_Small" ∧
    row.datasheet = DATASHEET ∧ row.lcsc = "" ∧ row.or_equivalent = "y" ∧
    row.rating = resistor_tolerance_str s.tolerance ++ ", 0.1W" := by
  unfold mkYageoResistorRow at h
  cases hf : resistor_footprint_str s.package with
  | error e => rw [hf] at h; simp at h
  | ok fp =>
    rw [hf] at h
    cases hm : yageo_resistor_mpn s.resistance s.package s.tolerance with
    | error e => rw [hm] at h; simp at h
    | ok mpn =>
      rw [hm] at h
      simp only [Except.ok.injEq] at h
      subst h
      exact ⟨rfl, rfl, rfl, rfl, rfl, rfl⟩

set_option maxRecDepth 100000 in
/-- Witness for C10 at the specification (100 ohms, "0402", 1.0). -/
theorem C10_fixed_metadata_witness :
    row100.manufacturer = "Yageo" ∧ row100.symbol = "Device:R_Small" ∧
    row100.datasheet = DATASHEET ∧ row100.lcsc = "" ∧
    row100.or_equivalent = "y" ∧
    row100.rating = resistor_tolerance_str 1 ++ ", 0.1W" :=
  C10_fixed_metadata ⟨100, "0402", 1⟩ row100 (by decide)

end ResistorGen
